import Mathlib

/-!
Verification development for a toy payments engine (`src/main.rs`).

The engine folds a stream of transactions (deposit, withdrawal, dispute,
resolve, chargeback) into per-client account state.  Monetary amounts are
`BigDecimal` values in the source (exact decimals); we embed them as `ℚ`,
on which addition, subtraction, negation and ordering agree with the
exact-decimal semantics.  The two `HashMap`s of the source (`accounts`,
`amounts`) are embedded as functions into `Option`.
-/

namespace Nginpay

/-- Possible transaction types in the CSV input (`enum TxRowType`). -/
inductive TxRowType where
  | deposit
  | withdrawal
  | dispute
  | resolve
  | chargeback
deriving DecidableEq

/-- Represents a transaction in the CSV input (`struct TxRow`).  The
`client` and `tx` columns are `u16` and `u32` in the source; they are only
used as map keys, never arithmetically, so we embed them as `ℕ`. -/
structure TxRow where
  tx_row_type : TxRowType
  client_id : ℕ
  tx_id : ℕ
  amount : Option String
deriving DecidableEq

/-- Possible domain transaction types (`enum TxType`).  Deposit and
Withdrawal have an amount. -/
inductive TxType where
  | deposit (amount : ℚ)
  | withdrawal (amount : ℚ)
  | dispute
  | resolve
  | chargeback
deriving DecidableEq

/-- A domain transaction (`struct Tx`). -/
structure Tx where
  tx_type : TxType
  client_id : ℕ
  tx_id : ℕ
deriving DecidableEq

/-- Digit string to natural number, most significant digit first. -/
def digitsToNat (cs : List Char) : ℕ :=
  cs.foldl (fun n c => 10 * n + (c.toNat - 48)) 0

/-- Parse a nonempty all-digit character list. -/
def parseDigits (cs : List Char) : Option ℕ :=
  if cs ≠ [] ∧ cs.all (·.isDigit) then some (digitsToNat cs) else none

/-- Parse an unsigned decimal literal: digits optionally followed by a
point and fractional digits. -/
def parseUnsigned (cs : List Char) : Option ℚ :=
  match cs.span (fun c => c != '.') with
  | (intPart, []) => (parseDigits intPart).map (fun n => (n : ℚ))
  | (intPart, _ :: fracPart) =>
      match parseDigits intPart, parseDigits fracPart with
      | some i, some f => some ((i : ℚ) + (f : ℚ) / (10 : ℚ) ^ fracPart.length)
      | _, _ => none

/-- Model of the external `BigDecimal::from_str` (bigdecimal crate): an
optionally signed exact decimal literal, `none` on parse failure. -/
def parseDecimal (s : String) : Option ℚ :=
  match s.toList with
  | [] => none
  | c :: cs =>
      if c = '-' then (parseUnsigned cs).map Neg.neg
      else if c = '+' then parseUnsigned cs
      else parseUnsigned (c :: cs)

/-- Conversion of a CSV row to a domain transaction
(`impl TryFrom<TxRow> for Tx`). -/
def Tx.tryFrom (row : TxRow) : Except String Tx :=
  match row.tx_row_type, row.amount with
  | .deposit, some a =>
      match parseDecimal a with
      | some amount => .ok ⟨.deposit amount, row.client_id, row.tx_id⟩
      | none => .error "Cannot parse amount as decimal number"
  | .deposit, none => .error "deposit is lacking amount"
  | .withdrawal, some a =>
      match parseDecimal a with
      | some amount => .ok ⟨.withdrawal amount, row.client_id, row.tx_id⟩
      | none => .error "Cannot parse amount as decimal number"
  | .withdrawal, none => .error "withdrawal is lacking amount"
  | .dispute, _ => .ok ⟨.dispute, row.client_id, row.tx_id⟩
  | .resolve, _ => .ok ⟨.resolve, row.client_id, row.tx_id⟩
  | .chargeback, _ => .ok ⟨.chargeback, row.client_id, row.tx_id⟩

/-- A domain account (`struct Account`).  `#[derive(Default)]` zeroes all
balances and leaves the account unlocked. -/
structure Account where
  available : ℚ
  held : ℚ
  total : ℚ
  locked : Bool
deriving DecidableEq

/-- The derived `Account::default()`: zero balances, unlocked. -/
def Account.default : Account :=
  { available := 0, held := 0, total := 0, locked := false }

/-- Embedding of `HashMap::insert` on function-valued maps. -/
def mapInsert {α : Type} (m : ℕ → Option α) (k : ℕ) (v : α) : ℕ → Option α :=
  fun i => if i = k then some v else m i

/-- The per-transaction transition on one account (`Account::run`).  The
source mutates `self` and the `amounts` map; we return both.  Branches
that only emit a diagnostic (`error!`) leave the state unchanged. -/
def Account.run (self : Account) (amounts : ℕ → Option ℚ) (tx : Tx) :
    Account × (ℕ → Option ℚ) :=
  match tx.tx_type with
  | .deposit amount =>
      ({ self with available := self.available + amount, total := self.total + amount },
       mapInsert amounts tx.tx_id amount)
  | .withdrawal amount =>
      if self.available < amount then
        (self, amounts)
      else
        ({ self with available := self.available - amount, total := self.total - amount },
         mapInsert amounts tx.tx_id (-amount))
  | .dispute =>
      match amounts tx.tx_id with
      | some amount =>
          ({ self with available := self.available - amount, held := self.held + amount },
           amounts)
      | none => (self, amounts)
  | .resolve =>
      match amounts tx.tx_id with
      | some amount =>
          ({ self with available := self.available + amount, held := self.held - amount },
           amounts)
      | none => (self, amounts)
  | .chargeback =>
      match amounts tx.tx_id with
      | some amount =>
          ({ self with held := self.held - amount, total := self.total - amount, locked := true },
           amounts)
      | none => (self, amounts)

/-- Accumulator for folding over domain transactions (`struct State`). -/
@[ext]
structure State where
  accounts : ℕ → Option Account
  amounts : ℕ → Option ℚ

/-- The derived `State::default()`: both maps empty. -/
def State.default : State :=
  { accounts := fun _ => none, amounts := fun _ => none }

/-- One fold step (`fn run_tx`): look up the client's account, lazily
creating a default one, run the transaction on it, and store it back. -/
def run_tx (state : State) (tx : Tx) : State :=
  match state.accounts tx.client_id with
  | some account =>
      { accounts := mapInsert state.accounts tx.client_id (account.run state.amounts tx).1,
        amounts := (account.run state.amounts tx).2 }
  | none =>
      { accounts := mapInsert state.accounts tx.client_id (Account.default.run state.amounts tx).1,
        amounts := (Account.default.run state.amounts tx).2 }

/-- The driver (`fn main`): fold `run_tx` over the transaction sequence
starting from the empty ledger state. -/
def replay (txs : List Tx) : State :=
  txs.foldl run_tx State.default

/-! ### Preservation of the balance invariant -/

/-- One `Account::run` step preserves `total = available + held`. -/
theorem Account.run_preserves_balance (self : Account) (amounts : ℕ → Option ℚ)
    (tx : Tx) (h : self.total = self.available + self.held) :
    ((self.run amounts tx).1).total =
      ((self.run amounts tx).1).available + ((self.run amounts tx).1).held := by
  obtain ⟨ty, c, t⟩ := tx
  cases ty with
  | deposit a => simp [Account.run, h]; try ring
  | withdrawal a =>
      by_cases hlt : self.available < a
      · simp [Account.run, hlt, h]
      · simp [Account.run, hlt, h]; try ring
  | dispute =>
      cases hm : amounts t with
      | none => simp [Account.run, hm, h]
      | some r => simp [Account.run, hm, h]; try ring
  | resolve =>
      cases hm : amounts t with
      | none => simp [Account.run, hm, h]
      | some r => simp [Account.run, hm, h]; try ring
  | chargeback =>
      cases hm : amounts t with
      | none => simp [Account.run, hm, h]
      | some r => simp [Account.run, hm, h]; try ring

/-- One `run_tx` step preserves the balance invariant on every account. -/
theorem run_tx_preserves_balance (s : State) (tx : Tx)
    (h : ∀ c a, s.accounts c = some a → a.total = a.available + a.held) :
    ∀ c a, (run_tx s tx).accounts c = some a → a.total = a.available + a.held := by
  intro c a ha
  unfold run_tx at ha
  cases hacc : s.accounts tx.client_id with
  | some acct =>
      rw [hacc] at ha
      simp only [mapInsert] at ha
      split at ha
      · cases ha
        exact Account.run_preserves_balance acct s.amounts tx (h _ acct hacc)
      · exact h c a ha
  | none =>
      rw [hacc] at ha
      simp only [mapInsert] at ha
      split at ha
      · cases ha
        exact Account.run_preserves_balance Account.default s.amounts tx (by simp [Account.default])
      · exact h c a ha

/-- Folding `run_tx` from an invariant-satisfying state keeps the invariant. -/
theorem foldl_run_tx_preserves_balance (txs : List Tx) (s : State)
    (h : ∀ c a, s.accounts c = some a → a.total = a.available + a.held) :
    ∀ c a, (txs.foldl run_tx s).accounts c = some a → a.total = a.available + a.held := by
  induction txs generalizing s with
  | nil => exact h
  | cons tx rest ih =>
      intro c a ha
      exact ih (run_tx s tx) (run_tx_preserves_balance s tx h) c a ha

/-- C1: for every sequence of transactions applied by the replay engine
starting from the empty ledger state, every account in the resulting ledger
satisfies `total = available + held` (exact decimal equality); since every
prefix of the stream is itself such a sequence, the invariant holds after
every applied transaction. -/
theorem C1_balance_invariant (txs : List Tx) (c : ℕ) (a : Account)
    (h : (replay txs).accounts c = some a) :
    a.total = a.available + a.held :=
  foldl_run_tx_preserves_balance txs State.default
    (fun _ _ hc => by simp [State.default] at hc) c a h

/-- Witness for C1 at a concrete one-transaction stream. -/
theorem C1_balance_invariant_witness :
    (replay [⟨.deposit 5, 42, 666⟩]).accounts 42 = some ⟨5, 0, 5, false⟩ ∧
    (Account.mk 5 0 5 false).total =
      (Account.mk 5 0 5 false).available + (Account.mk 5 0 5 false).held :=
  ⟨by norm_num [replay, run_tx, Account.run, State.default, Account.default, mapInsert],
   C1_balance_invariant [⟨.deposit 5, 42, 666⟩] 42 ⟨5, 0, 5, false⟩
     (by norm_num [replay, run_tx, Account.run, State.default, Account.default, mapInsert])⟩

/-! ### Step lemmas for the five transaction kinds -/

/-- A deposit step: the client's (possibly lazily created) account gains
the amount on `available` and `total`; the amount is recorded. -/
theorem run_tx_deposit (state : State) (c t : ℕ) (a : ℚ) :
    run_tx state ⟨.deposit a, c, t⟩ =
      { accounts := mapInsert state.accounts c
          { (state.accounts c).getD Account.default with
              available := ((state.accounts c).getD Account.default).available + a,
              total := ((state.accounts c).getD Account.default).total + a },
        amounts := mapInsert state.amounts t a } := by
  cases hacc : state.accounts c with
  | some acct => simp [run_tx, hacc, Account.run]
  | none => simp [run_tx, hacc, Account.run]

/-- A dispute step on a recorded transaction id moves its amount from
`available` to `held`; the recorded amounts are untouched. -/
theorem run_tx_dispute (state : State) (c t : ℕ) (A : ℚ)
    (h : state.amounts t = some A) :
    run_tx state ⟨.dispute, c, t⟩ =
      { accounts := mapInsert state.accounts c
          { (state.accounts c).getD Account.default with
              available := ((state.accounts c).getD Account.default).available - A,
              held := ((state.accounts c).getD Account.default).held + A },
        amounts := state.amounts } := by
  cases hacc : state.accounts c with
  | some acct => simp [run_tx, hacc, Account.run, h]
  | none => simp [run_tx, hacc, Account.run, h]

/-- A resolve step on a recorded transaction id moves its amount from
`held` back to `available`; the recorded amounts are untouched. -/
theorem run_tx_resolve (state : State) (c t : ℕ) (A : ℚ)
    (h : state.amounts t = some A) :
    run_tx state ⟨.resolve, c, t⟩ =
      { accounts := mapInsert state.accounts c
          { (state.accounts c).getD Account.default with
              available := ((state.accounts c).getD Account.default).available + A,
              held := ((state.accounts c).getD Account.default).held - A },
        amounts := state.amounts } := by
  cases hacc : state.accounts c with
  | some acct => simp [run_tx, hacc, Account.run, h]
  | none => simp [run_tx, hacc, Account.run, h]

/-- A chargeback step on a recorded transaction id removes its amount from
`held` and `total` and locks the account; the recorded amounts are
untouched. -/
theorem run_tx_chargeback (state : State) (c t : ℕ) (A : ℚ)
    (h : state.amounts t = some A) :
    run_tx state ⟨.chargeback, c, t⟩ =
      { accounts := mapInsert state.accounts c
          { (state.accounts c).getD Account.default with
              held := ((state.accounts c).getD Account.default).held - A,
              total := ((state.accounts c).getD Account.default).total - A,
              locked := true },
        amounts := state.amounts } := by
  cases hacc : state.accounts c with
  | some acct => simp [run_tx, hacc, Account.run, h]
  | none => simp [run_tx, hacc, Account.run, h]

/-- C2: for a `Withdrawal(a)` transaction, if the client's account has
`available ≥ a` then `available` and `total` each decrease by `a` and
`resolved_amounts` gains the entry `tx_id ↦ -a`; if `available < a` the
transaction is silently dropped with no state change. -/
theorem C2_withdrawal_cases (state : State) (acct : Account) (c t : ℕ) (a : ℚ)
    (hacct : state.accounts c = some acct) :
    (a ≤ acct.available →
      run_tx state ⟨.withdrawal a, c, t⟩ =
        { accounts := mapInsert state.accounts c
            { acct with available := acct.available - a, total := acct.total - a },
          amounts := mapInsert state.amounts t (-a) }) ∧
    (acct.available < a → run_tx state ⟨.withdrawal a, c, t⟩ = state) := by
  constructor
  · intro hle
    have hnlt : ¬ acct.available < a := not_lt.mpr hle
    simp [run_tx, hacct, Account.run, hnlt]
  · intro hlt
    apply State.ext
    · funext c'
      by_cases hc : c' = c
      · subst hc
        simp [run_tx, hacct, Account.run, hlt, mapInsert]
      · simp [run_tx, hacct, Account.run, hlt, mapInsert, hc]
    · simp [run_tx, hacct, Account.run, hlt]

/-- Witness for C2 at a concrete state holding account 1 with available 5. -/
theorem C2_withdrawal_cases_witness :
    (State.mk (fun c' => if c' = 1 then some (Account.mk 5 0 5 false) else none)
        (fun _ => none)).accounts 1 = some (Account.mk 5 0 5 false) ∧
    ((3 ≤ (Account.mk 5 0 5 false).available →
        run_tx
          (State.mk (fun c' => if c' = 1 then some (Account.mk 5 0 5 false) else none)
            (fun _ => none)) ⟨.withdrawal 3, 1, 9⟩ =
          { accounts := mapInsert
              (fun c' => if c' = 1 then some (Account.mk 5 0 5 false) else none) 1
              { Account.mk 5 0 5 false with
                  available := (Account.mk 5 0 5 false).available - 3,
                  total := (Account.mk 5 0 5 false).total - 3 },
            amounts := mapInsert (fun _ => none) 9 (-3) }) ∧
     ((Account.mk 5 0 5 false).available < 3 →
        run_tx
          (State.mk (fun c' => if c' = 1 then some (Account.mk 5 0 5 false) else none)
            (fun _ => none)) ⟨.withdrawal 3, 1, 9⟩ =
          State.mk (fun c' => if c' = 1 then some (Account.mk 5 0 5 false) else none)
            (fun _ => none))) :=
  ⟨rfl, C2_withdrawal_cases _ _ 1 9 3 rfl⟩

/-- C3: for every `Deposit(a)` transaction, with no precondition, the
client's account gains `a` on both `available` and `total`, and
`resolved_amounts` records `tx_id ↦ a`. -/
theorem C3_deposit_unconditional (state : State) (c t : ℕ) (a : ℚ) :
    run_tx state ⟨.deposit a, c, t⟩ =
      { accounts := mapInsert state.accounts c
          { (state.accounts c).getD Account.default with
              available := ((state.accounts c).getD Account.default).available + a,
              total := ((state.accounts c).getD Account.default).total + a },
        amounts := mapInsert state.amounts t a } :=
  run_tx_deposit state c t a

/-- C4: starting from any ledger state that records amount `A` under tx id
`t`, applying Dispute then Resolve for `t` (same client) returns
`available` and `held` to their pre-dispute values, and `total` is
unchanged after each of the two steps. -/
theorem C4_dispute_resolve_roundtrip (state : State) (c t : ℕ) (A : ℚ)
    (h : state.amounts t = some A) :
    (((run_tx state ⟨.dispute, c, t⟩).accounts c).getD Account.default).total =
      ((state.accounts c).getD Account.default).total ∧
    (((run_tx (run_tx state ⟨.dispute, c, t⟩) ⟨.resolve, c, t⟩).accounts c).getD
        Account.default).available = ((state.accounts c).getD Account.default).available ∧
    (((run_tx (run_tx state ⟨.dispute, c, t⟩) ⟨.resolve, c, t⟩).accounts c).getD
        Account.default).held = ((state.accounts c).getD Account.default).held ∧
    (((run_tx (run_tx state ⟨.dispute, c, t⟩) ⟨.resolve, c, t⟩).accounts c).getD
        Account.default).total = ((state.accounts c).getD Account.default).total := by
  rw [run_tx_dispute state c t A h]
  rw [run_tx_resolve _ c t A (by simpa using h)]
  refine ⟨by simp [mapInsert], ?_, ?_, ?_⟩ <;> simp [mapInsert]

/-- Witness for C4 at a concrete state recording amount 5 under tx id 7. -/
theorem C4_dispute_resolve_roundtrip_witness :
    (State.mk (fun _ => none) (fun i => if i = 7 then some 5 else none)).amounts 7 =
      some 5 ∧
    ((((run_tx
          (State.mk (fun _ => none) (fun i => if i = 7 then some 5 else none))
          ⟨.dispute, 1, 7⟩).accounts 1).getD Account.default).total =
      (((State.mk (fun _ => none)
          (fun i => if i = 7 then some 5 else none)).accounts 1).getD Account.default).total ∧
    (((run_tx
        (run_tx (State.mk (fun _ => none) (fun i => if i = 7 then some 5 else none))
          ⟨.dispute, 1, 7⟩) ⟨.resolve, 1, 7⟩).accounts 1).getD Account.default).available =
      (((State.mk (fun _ => none)
          (fun i => if i = 7 then some 5 else none)).accounts 1).getD Account.default).available ∧
    (((run_tx
        (run_tx (State.mk (fun _ => none) (fun i => if i = 7 then some 5 else none))
          ⟨.dispute, 1, 7⟩) ⟨.resolve, 1, 7⟩).accounts 1).getD Account.default).held =
      (((State.mk (fun _ => none)
          (fun i => if i = 7 then some 5 else none)).accounts 1).getD Account.default).held ∧
    (((run_tx
        (run_tx (State.mk (fun _ => none) (fun i => if i = 7 then some 5 else none))
          ⟨.dispute, 1, 7⟩) ⟨.resolve, 1, 7⟩).accounts 1).getD Account.default).total =
      (((State.mk (fun _ => none)
          (fun i => if i = 7 then some 5 else none)).accounts 1).getD Account.default).total) :=
  ⟨rfl, C4_dispute_resolve_roundtrip _ 1 7 5 rfl⟩

/-- C5: starting from any ledger state that records amount `A` under tx id
`t`, applying Dispute then Chargeback for `t` (same client) leaves
`available` at its post-dispute value (pre-dispute minus `A`), returns
`held` to its pre-dispute value, decreases `total` by `A`, and sets
`locked` to true. -/
theorem C5_dispute_chargeback (state : State) (c t : ℕ) (A : ℚ)
    (h : state.amounts t = some A) :
    (((run_tx (run_tx state ⟨.dispute, c, t⟩) ⟨.chargeback, c, t⟩).accounts c).getD
        Account.default).available =
      ((state.accounts c).getD Account.default).available - A ∧
    (((run_tx (run_tx state ⟨.dispute, c, t⟩) ⟨.chargeback, c, t⟩).accounts c).getD
        Account.default).held = ((state.accounts c).getD Account.default).held ∧
    (((run_tx (run_tx state ⟨.dispute, c, t⟩) ⟨.chargeback, c, t⟩).accounts c).getD
        Account.default).total = ((state.accounts c).getD Account.default).total - A ∧
    (((run_tx (run_tx state ⟨.dispute, c, t⟩) ⟨.chargeback, c, t⟩).accounts c).getD
        Account.default).locked = true := by
  rw [run_tx_dispute state c t A h]
  rw [run_tx_chargeback _ c t A (by simpa using h)]
  refine ⟨?_, ?_, ?_, ?_⟩ <;> simp [mapInsert]

/-- Witness for C5 at a concrete state recording amount 5 under tx id 7. -/
theorem C5_dispute_chargeback_witness :
    (State.mk (fun _ => none) (fun i => if i = 7 then some 5 else none)).amounts 7 =
      some 5 ∧
    ((((run_tx
        (run_tx (State.mk (fun _ => none) (fun i => if i = 7 then some 5 else none))
          ⟨.dispute, 1, 7⟩) ⟨.chargeback, 1, 7⟩).accounts 1).getD Account.default).available =
      (((State.mk (fun _ => none)
          (fun i => if i = 7 then some 5 else none)).accounts 1).getD
          Account.default).available - 5 ∧
    (((run_tx
        (run_tx (State.mk (fun _ => none) (fun i => if i = 7 then some 5 else none))
          ⟨.dispute, 1, 7⟩) ⟨.chargeback, 1, 7⟩).accounts 1).getD Account.default).held =
      (((State.mk (fun _ => none)
          (fun i => if i = 7 then some 5 else none)).accounts 1).getD Account.default).held ∧
    (((run_tx
        (run_tx (State.mk (fun _ => none) (fun i => if i = 7 then some 5 else none))
          ⟨.dispute, 1, 7⟩) ⟨.chargeback, 1, 7⟩).accounts 1).getD Account.default).total =
      (((State.mk (fun _ => none)
          (fun i => if i = 7 then some 5 else none)).accounts 1).getD
          Account.default).total - 5 ∧
    (((run_tx
        (run_tx (State.mk (fun _ => none) (fun i => if i = 7 then some 5 else none))
          ⟨.dispute, 1, 7⟩) ⟨.chargeback, 1, 7⟩).accounts 1).getD Account.default).locked =
      true) :=
  ⟨rfl, C5_dispute_chargeback _ 1 7 5 rfl⟩

/-- C6: a Dispute, Resolve, or Chargeback whose tx id is not recorded is
discarded: the referenced client's account fields are entirely unchanged,
no other client's account entry changes, and the recorded amounts are
untouched (the fold then simply continues with the next transaction). -/
theorem C6_unknown_reference (state : State) (ty : TxType) (c t : ℕ)
    (hty : ty = .dispute ∨ ty = .resolve ∨ ty = .chargeback)
    (h : state.amounts t = none) :
    ((run_tx state ⟨ty, c, t⟩).accounts c).getD Account.default =
      (state.accounts c).getD Account.default ∧
    (∀ c', c' ≠ c → (run_tx state ⟨ty, c, t⟩).accounts c' = state.accounts c') ∧
    (run_tx state ⟨ty, c, t⟩).amounts = state.amounts := by
  rcases hty with rfl | rfl | rfl <;>
  · cases hacc : state.accounts c with
    | some acct =>
        refine ⟨?_, ?_, ?_⟩
        · simp [run_tx, hacc, Account.run, h, mapInsert]
        · intro c' hc'
          simp [run_tx, hacc, Account.run, h, mapInsert, hc']
        · simp [run_tx, hacc, Account.run, h]
    | none =>
        refine ⟨?_, ?_, ?_⟩
        · simp [run_tx, hacc, Account.run, h, mapInsert]
        · intro c' hc'
          simp [run_tx, hacc, Account.run, h, mapInsert, hc']
        · simp [run_tx, hacc, Account.run, h]

/-- Witness for C6: a dispute for the unknown tx id 4 on the empty state. -/
theorem C6_unknown_reference_witness :
    (TxType.dispute = TxType.dispute ∨ TxType.dispute = TxType.resolve ∨
      TxType.dispute = TxType.chargeback) ∧
    State.default.amounts 4 = none ∧
    (((run_tx State.default ⟨.dispute, 3, 4⟩).accounts 3).getD Account.default =
      (State.default.accounts 3).getD Account.default ∧
    (∀ c', c' ≠ 3 → (run_tx State.default ⟨.dispute, 3, 4⟩).accounts c' =
      State.default.accounts c') ∧
    (run_tx State.default ⟨.dispute, 3, 4⟩).amounts = State.default.amounts) :=
  ⟨Or.inl rfl, rfl, C6_unknown_reference State.default .dispute 3 4 (Or.inl rfl) rfl⟩

/-- C7: construction of a domain transaction from a raw record fails
exactly when the record is a Deposit or Withdrawal whose amount is missing
or fails to parse as an exact decimal; Dispute, Resolve and Chargeback
records always construct successfully. -/
theorem C7_tryFrom_failure_iff (row : TxRow) :
    (Tx.tryFrom row).toOption = none ↔
      ((row.tx_row_type = .deposit ∨ row.tx_row_type = .withdrawal) ∧
       (row.amount = none ∨ ∃ s, row.amount = some s ∧ parseDecimal s = none)) := by
  obtain ⟨ty, c, t, am⟩ := row
  cases ty <;> cases am <;>
    simp only [Tx.tryFrom, Except.toOption] <;>
    try simp
  case deposit.some s =>
    cases hp : parseDecimal s <;> simp [hp]
  case withdrawal.some s =>
    cases hp : parseDecimal s <;> simp [hp]

/-- C8: the replay engine never consults the `locked` flag: a transaction
run on an account with `locked = true` has exactly the same effect on
`available`, `held`, `total` and the recorded amounts as on the same
account with `locked = false`, for every transaction kind. -/
theorem C8_locked_not_consulted (acct : Account) (amounts : ℕ → Option ℚ) (tx : Tx) :
    (Account.run { acct with locked := true } amounts tx).1.available =
      (Account.run { acct with locked := false } amounts tx).1.available ∧
    (Account.run { acct with locked := true } amounts tx).1.held =
      (Account.run { acct with locked := false } amounts tx).1.held ∧
    (Account.run { acct with locked := true } amounts tx).1.total =
      (Account.run { acct with locked := false } amounts tx).1.total ∧
    (Account.run { acct with locked := true } amounts tx).2 =
      (Account.run { acct with locked := false } amounts tx).2 := by
  obtain ⟨ty, c, t⟩ := tx
  cases ty with
  | deposit a => simp [Account.run]
  | withdrawal a =>
      by_cases hlt : acct.available < a <;> simp [Account.run, hlt]
  | dispute => cases hm : amounts t <;> simp [Account.run, hm]
  | resolve => cases hm : amounts t <;> simp [Account.run, hm]
  | chargeback => cases hm : amounts t <;> simp [Account.run, hm]

/-- C9: a transaction whose client id has no account yet creates that
account (it is present afterwards), and when the transaction itself is
dropped — an insufficient-funds withdrawal (any positive amount against
the fresh zero balance) or an unknown dispute/resolve/chargeback
reference — the created account is exactly the default: zero balances,
unlocked. -/
theorem C9_lazy_account_creation (state : State) (tx : Tx)
    (h : state.accounts tx.client_id = none) :
    (∃ a, (run_tx state tx).accounts tx.client_id = some a) ∧
    ((∃ a, tx.tx_type = .withdrawal a ∧ 0 < a) ∨
        ((tx.tx_type = .dispute ∨ tx.tx_type = .resolve ∨ tx.tx_type = .chargeback) ∧
          state.amounts tx.tx_id = none) →
      (run_tx state tx).accounts tx.client_id = some Account.default) := by
  constructor
  · refine ⟨(Account.default.run state.amounts tx).1, ?_⟩
    simp [run_tx, h, mapInsert]
  · rintro (⟨a, hty, ha⟩ | ⟨hty, hm⟩)
    · simp [run_tx, h, mapInsert, Account.run, hty, Account.default, ha]
    · rcases hty with hty | hty | hty <;>
        simp [run_tx, h, mapInsert, Account.run, hty, hm]

/-- Witness for C9: a withdrawal by the unseen client 7 on the empty
state. -/
theorem C9_lazy_account_creation_witness :
    State.default.accounts 7 = none ∧
    ((∃ a, (run_tx State.default ⟨.withdrawal 3, 7, 9⟩).accounts 7 = some a) ∧
     ((∃ a, TxType.withdrawal 3 = TxType.withdrawal a ∧ 0 < a) ∨
         ((TxType.withdrawal 3 = TxType.dispute ∨ TxType.withdrawal 3 = TxType.resolve ∨
            TxType.withdrawal 3 = TxType.chargeback) ∧
           State.default.amounts 9 = none) →
       (run_tx State.default ⟨.withdrawal 3, 7, 9⟩).accounts 7 = some Account.default)) :=
  ⟨rfl, C9_lazy_account_creation State.default ⟨.withdrawal 3, 7, 9⟩ rfl⟩

/-- C10: the engine performs no ownership check on back-references: after
a deposit of `A` by client `c₁` recorded under tx id `t`, a Dispute,
Resolve or Chargeback referencing `t` issued under a different client
`c₂` applies the recorded amount to `c₂`'s account, while `c₁`'s account
entry is untouched by the back-reference. -/
theorem C10_no_ownership_check (state : State) (c₁ c₂ t : ℕ) (A : ℚ)
    (hne : c₂ ≠ c₁) :
    (run_tx state ⟨.deposit A, c₁, t⟩).amounts t = some A ∧
    (run_tx (run_tx state ⟨.deposit A, c₁, t⟩) ⟨.dispute, c₂, t⟩).accounts c₁ =
      (run_tx state ⟨.deposit A, c₁, t⟩).accounts c₁ ∧
    ((run_tx (run_tx state ⟨.deposit A, c₁, t⟩) ⟨.dispute, c₂, t⟩).accounts c₂).getD
        Account.default =
      { ((run_tx state ⟨.deposit A, c₁, t⟩).accounts c₂).getD Account.default with
          available :=
            (((run_tx state ⟨.deposit A, c₁, t⟩).accounts c₂).getD
              Account.default).available - A,
          held :=
            (((run_tx state ⟨.deposit A, c₁, t⟩).accounts c₂).getD
              Account.default).held + A } ∧
    (run_tx (run_tx state ⟨.deposit A, c₁, t⟩) ⟨.resolve, c₂, t⟩).accounts c₁ =
      (run_tx state ⟨.deposit A, c₁, t⟩).accounts c₁ ∧
    ((run_tx (run_tx state ⟨.deposit A, c₁, t⟩) ⟨.resolve, c₂, t⟩).accounts c₂).getD
        Account.default =
      { ((run_tx state ⟨.deposit A, c₁, t⟩).accounts c₂).getD Account.default with
          available :=
            (((run_tx state ⟨.deposit A, c₁, t⟩).accounts c₂).getD
              Account.default).available + A,
          held :=
            (((run_tx state ⟨.deposit A, c₁, t⟩).accounts c₂).getD
              Account.default).held - A } ∧
    (run_tx (run_tx state ⟨.deposit A, c₁, t⟩) ⟨.chargeback, c₂, t⟩).accounts c₁ =
      (run_tx state ⟨.deposit A, c₁, t⟩).accounts c₁ ∧
    ((run_tx (run_tx state ⟨.deposit A, c₁, t⟩) ⟨.chargeback, c₂, t⟩).accounts c₂).getD
        Account.default =
      { ((run_tx state ⟨.deposit A, c₁, t⟩).accounts c₂).getD Account.default with
          held :=
            (((run_tx state ⟨.deposit A, c₁, t⟩).accounts c₂).getD
              Account.default).held - A,
          total :=
            (((run_tx state ⟨.deposit A, c₁, t⟩).accounts c₂).getD
              Account.default).total - A,
          locked := true } := by
  have hamt : (run_tx state ⟨.deposit A, c₁, t⟩).amounts t = some A := by
    rw [run_tx_deposit]
    simp [mapInsert]
  refine ⟨hamt, ?_, ?_, ?_, ?_, ?_, ?_⟩
  · rw [run_tx_dispute _ c₂ t A hamt]
    simp [mapInsert, hne.symm]
  · rw [run_tx_dispute _ c₂ t A hamt]
    simp [mapInsert]
  · rw [run_tx_resolve _ c₂ t A hamt]
    simp [mapInsert, hne.symm]
  · rw [run_tx_resolve _ c₂ t A hamt]
    simp [mapInsert]
  · rw [run_tx_chargeback _ c₂ t A hamt]
    simp [mapInsert, hne.symm]
  · rw [run_tx_chargeback _ c₂ t A hamt]
    simp [mapInsert]

/-- Witness for C10: client 1 deposits 5 under tx id 9; client 2 issues
the back-references. -/
theorem C10_no_ownership_check_witness :
    (2 : ℕ) ≠ 1 ∧
    ((run_tx State.default ⟨.deposit 5, 1, 9⟩).amounts 9 = some 5 ∧
    (run_tx (run_tx State.default ⟨.deposit 5, 1, 9⟩) ⟨.dispute, 2, 9⟩).accounts 1 =
      (run_tx State.default ⟨.deposit 5, 1, 9⟩).accounts 1 ∧
    ((run_tx (run_tx State.default ⟨.deposit 5, 1, 9⟩) ⟨.dispute, 2, 9⟩).accounts 2).getD
        Account.default =
      { ((run_tx State.default ⟨.deposit 5, 1, 9⟩).accounts 2).getD Account.default with
          available :=
            (((run_tx State.default ⟨.deposit 5, 1, 9⟩).accounts 2).getD
              Account.default).available - 5,
          held :=
            (((run_tx State.default ⟨.deposit 5, 1, 9⟩).accounts 2).getD
              Account.default).held + 5 } ∧
    (run_tx (run_tx State.default ⟨.deposit 5, 1, 9⟩) ⟨.resolve, 2, 9⟩).accounts 1 =
      (run_tx State.default ⟨.deposit 5, 1, 9⟩).accounts 1 ∧
    ((run_tx (run_tx State.default ⟨.deposit 5, 1, 9⟩) ⟨.resolve, 2, 9⟩).accounts 2).getD
        Account.default =
      { ((run_tx State.default ⟨.deposit 5, 1, 9⟩).accounts 2).getD Account.default with
          available :=
            (((run_tx State.default ⟨.deposit 5, 1, 9⟩).accounts 2).getD
              Account.default).available + 5,
          held :=
            (((run_tx State.default ⟨.deposit 5, 1, 9⟩).accounts 2).getD
              Account.default).held - 5 } ∧
    (run_tx (run_tx State.default ⟨.deposit 5, 1, 9⟩) ⟨.chargeback, 2, 9⟩).accounts 1 =
      (run_tx State.default ⟨.deposit 5, 1, 9⟩).accounts 1 ∧
    ((run_tx (run_tx State.default ⟨.deposit 5, 1, 9⟩) ⟨.chargeback, 2, 9⟩).accounts 2).getD
        Account.default =
      { ((run_tx State.default ⟨.deposit 5, 1, 9⟩).accounts 2).getD Account.default with
          held :=
            (((run_tx State.default ⟨.deposit 5, 1, 9⟩).accounts 2).getD
              Account.default).held - 5,
          total :=
            (((run_tx State.default ⟨.deposit 5, 1, 9⟩).accounts 2).getD
              Account.default).total - 5,
          locked := true }) :=
  ⟨by decide, C10_no_ownership_check State.default 1 2 9 5 (by decide)⟩

end Nginpay
